import Mathlib

/-
Verification of the io-fault/sys-factors compilation-role and error-injection
support headers, together with spec-level models of the loader's cache
behaviour.  Definitions are shallow embeddings of the C preprocessor
constructs found in the repository's headers (roles, ERRNO_RECEPTACLE,
PYTHON_RECEPTACLE, module initialization) and of the cache manager described
by the specification.
-/

/-- The five compilation roles recognized by the role-selection chain
(`#if TEST() ... #elif BOOTSTRAP() ... #else #error unknown role`). -/
inductive Role
| test
| debug
| factor
| inspect
| bootstrap
deriving DecidableEq, Repr

/-- Which of the five role predicate macros (TEST(), DEBUG(), FACTOR(),
INSPECT(), BOOTSTRAP()) evaluate to a nonzero value for a given build
configuration. -/
structure RoleConfig where
  test : Bool
  debug : Bool
  factor : Bool
  inspect : Bool
  bootstrap : Bool
deriving DecidableEq, Repr

/-- The role-selection chain: `#if TEST()` defines ROLE as TEST, `#elif
DEBUG()` as DEBUG, and so on; when no predicate holds the chain reaches
`#error unknown role`, modelled as `none`. -/
def selectRole (c : RoleConfig) : Option Role :=
  if c.test then some Role.test
  else if c.debug then some Role.debug
  else if c.factor then some Role.factor
  else if c.inspect then some Role.inspect
  else if c.bootstrap then some Role.bootstrap
  else none

/-- Outcome of calling a configured errno injector entry: the call can fail
(PyObject_CallFunction returns NULL), return Py_False, return a tuple
holding a single integer (parseable by PyArg_ParseTuple with format "i"),
or return any other value (parse fails). -/
inductive CallResult
| failed
| pyFalse
| intTuple (n : Int)
| malformed
deriving DecidableEq, Repr

/-- Observable outcome of one ERRNO_RECEPTACLE expansion: the value stored
through RETURN, the errno value after the expansion, whether the real
SYSCALL was performed, whether the warning about malformed injectors was
written to stderr, and whether a pending Python error was cleared. -/
structure ErrnoOut where
  ret : Int
  errno : Int
  performed : Bool
  warned : Bool
  errCleared : Bool
deriving DecidableEq, Repr

/-- PyDict_GetItemString over the receptacle dictionary, modelled as
first-match lookup in an association list. -/
def lookupEntry : List (String × CallResult) → String → Option CallResult
  | [], _ => none
  | (k, v) :: rest, key => if k = key then some v else lookupEntry rest key

/-- The TEST()-role body of ERRNO_RECEPTACLE(ERROR_STATUS, RETURN, SYSCALL,
...): if the receptacle dictionary is empty the real SYSCALL runs; otherwise
the entry keyed by `__func__ "." #SYSCALL` is looked up; a missing entry or
an entry call returning Py_False runs the real SYSCALL; an entry call
returning a single-int tuple injects that errno and stores ERROR_STATUS; a
failed call or a malformed return clears the Python error, warns on stderr,
injects errno -1 and stores ERROR_STATUS. -/
def ERRNO_RECEPTACLE_test (d : List (String × CallResult))
    (funcName syscallName : String) (errorStatus syscallRet errno0 : Int) :
    ErrnoOut :=
  if d.length = 0 then
    { ret := syscallRet, errno := errno0, performed := true,
      warned := false, errCleared := false }
  else
    match lookupEntry d (funcName ++ "." ++ syscallName) with
    | none =>
      { ret := syscallRet, errno := errno0, performed := true,
        warned := false, errCleared := false }
    | some CallResult.pyFalse =>
      { ret := syscallRet, errno := errno0, performed := true,
        warned := false, errCleared := false }
    | some (CallResult.intTuple n) =>
      { ret := errorStatus, errno := n, performed := false,
        warned := false, errCleared := false }
    | some CallResult.failed =>
      { ret := errorStatus, errno := -1, performed := false,
        warned := true, errCleared := true }
    | some CallResult.malformed =>
      { ret := errorStatus, errno := -1, performed := false,
        warned := true, errCleared := true }

/-- ERRNO_RECEPTACLE as conditionally compiled: under `#if TEST()` the
injection body is used, under `#else` the expansion is exactly
`*(RETURN) = SYSCALL(__VA_ARGS__)`. -/
def ERRNO_RECEPTACLE (role : Role) (d : List (String × CallResult))
    (funcName syscallName : String) (errorStatus syscallRet errno0 : Int) :
    ErrnoOut :=
  if role = Role.test then
    ERRNO_RECEPTACLE_test d funcName syscallName errorStatus syscallRet errno0
  else
    { ret := syscallRet, errno := errno0, performed := true,
      warned := false, errCleared := false }

/-- Spec-side definition for the refinement claim: the direct call
`*(RETURN) = SYSCALL(...)`, performing the real operation and leaving errno
as the operation left it. -/
def directSyscall (syscallRet errno0 : Int) : ErrnoOut :=
  { ret := syscallRet, errno := errno0, performed := true,
    warned := false, errCleared := false }

/-- A Python object reference: NULL, Py_True, Py_False, or some other
object identified by a number. -/
inductive PyVal
| null
| pyTrue
| pyFalse
| obj (n : Nat)
deriving DecidableEq, Repr

/-- Outcome of calling a configured Python-call injector entry: failure
(NULL), Py_False, a value parseable by PyArg_ParseTuple with format "(O)"
yielding an object, or any other value. -/
inductive PyCallResult
| failed
| pyFalse
| objTuple (v : PyVal)
| malformed
deriving DecidableEq, Repr

/-- PyDict_GetItemString over the Python receptacle dictionary. -/
def lookupPyEntry : List (String × PyCallResult) → String → Option PyCallResult
  | [], _ => none
  | (k, v) :: rest, key => if k = key then some v else lookupPyEntry rest key

/-- The TEST()-role body of PYTHON_RECEPTACLE(ID, RETURN, CALL, ...): empty
dictionary or missing entry or Py_False performs the real CALL; an entry
returning a parseable "(O)" value overrides RETURN with the carried object;
a failed call or malformed return stores NULL. -/
def PYTHON_RECEPTACLE_test (d : List (String × PyCallResult))
    (funcName opId : String) (callRet : PyVal) : PyVal :=
  if d.length = 0 then callRet
  else
    match lookupPyEntry d (funcName ++ "." ++ opId) with
    | none => callRet
    | some PyCallResult.pyFalse => callRet
    | some (PyCallResult.objTuple v) => v
    | some PyCallResult.failed => PyVal.null
    | some PyCallResult.malformed => PyVal.null

/-- PYTHON_RECEPTACLE as conditionally compiled: under `#else` (any role
other than test) the expansion is exactly `*(RETURN) = CALL(__VA_ARGS__)`. -/
def PYTHON_RECEPTACLE (role : Role) (d : List (String × PyCallResult))
    (funcName opId : String) (callRet : PyVal) : PyVal :=
  if role = Role.test then PYTHON_RECEPTACLE_test d funcName opId callRet
  else callRet

/-- Spec-side definition for the refinement claim: the direct call
`*(RETURN) = CALL(...)`. -/
def directPyCall (callRet : PyVal) : PyVal := callRet

/-- Gate of DEFINE_MODULE_GLOBALS / INIT_MODULE_GLOBALS in the module
initialization header: the receptacle dictionaries __ERRNO_RECEPTACLE__ and
__PYTHON_RECEPTACLE__ are defined and installed into the module dict under
`#if TEST() || METRICS()`, and absent otherwise. -/
def installsReceptacleSymbols (test metrics : Bool) : Bool := test || metrics

/-- whether the coverage-flush hook is bound to __gcov_flush: the
declaration of __gcov_flush and the call to it are under `#if TEST()`
only. -/
def bindsGcovFlush (test : Bool) : Bool := test

/-- Behaviour of flush_measurements: under TEST() it calls __gcov_flush and
returns Py_True; otherwise it returns Py_None. -/
inductive FlushBehavior
| gcovFlushTrue
| returnsNone
deriving DecidableEq, Repr

/-- flush_measurements as conditionally compiled. -/
def flush_measurements (test : Bool) : FlushBehavior :=
  if test then FlushBehavior.gcovFlushTrue else FlushBehavior.returnsNone

/-- Behaviour selected for PyDoc_STR by the conditional block
`#if FACTOR(DOCSTRINGS) ... #elif FACTOR() ... #endif`. -/
inductive PyDocBehavior
| identity
| emptyString
| pythonDefault
deriving DecidableEq, Repr

/-- The conditional block: with the factor role and the DOCSTRINGS option,
PyDoc_STR(x) is redefined to x; with the factor role alone it is redefined
to the empty string; otherwise Python's own definition is left intact. -/
def pyDocConfig (factorRole docstringsOpt : Bool) : PyDocBehavior :=
  if factorRole && docstringsOpt then PyDocBehavior.identity
  else if factorRole then PyDocBehavior.emptyString
  else PyDocBehavior.pythonDefault

/-- PyDoc_STR applied to an argument, given the conditional configuration
and Python's default definition `dflt`. -/
def PyDoc_STR (factorRole docstringsOpt : Bool) (dflt : String → String)
    (x : String) : String :=
  match pyDocConfig factorRole docstringsOpt with
  | PyDocBehavior.identity => x
  | PyDocBehavior.emptyString => ""
  | PyDocBehavior.pythonDefault => dflt x

/-- return_true from the good.py.c fixture: Py_INCREF(Py_True); return
Py_True. -/
def return_true (_self : PyVal) : PyVal := PyVal.pyTrue

/-- CPython's METH_NOARGS calling-convention flag (0x0004): the function
takes no arguments. -/
def METH_NOARGS : Nat := 4

/-- One PyMethodDef entry: exported name and calling-convention flags. -/
structure MethodDef where
  name : String
  flags : Nat
deriving DecidableEq, Repr

/-- The METHODS() table of good.py.c: a single entry exporting return_true
with METH_NOARGS. -/
def good_methods : List MethodDef :=
  [{ name := "return_true", flags := METH_NOARGS }]

/-- Success or failure of each C-API call made by the Python-3 CREATE_MODULE
of the test/metrics module header: PyModule_Create, PyModule_GetDict, the
two PyDict_New calls of INIT_MODULE_GLOBALS, and the two
PyDict_SetItemString calls installing the receptacles.  A failing call
leaves a pending Python error. -/
structure InitWorld where
  moduleCreateOk : Bool
  getDictOk : Bool
  errnoDictNewOk : Bool
  pythonDictNewOk : Bool
  setErrnoItemOk : Bool
  setPythonItemOk : Bool
deriving DecidableEq, Repr

/-- Observable outcome of CREATE_MODULE(MOD): whether *MOD is non-NULL,
whether the module dict was retrieved, whether each receptacle dictionary
was installed into the module dict, and whether the module object was
released (Py_DECREF) on the error path. -/
structure CreateModuleOut where
  modNonNull : Bool
  dictRetrieved : Bool
  errnoInstalled : Bool
  pythonInstalled : Bool
  moduleReleased : Bool
deriving DecidableEq, Repr

/-- The Python-3 CREATE_MODULE(MOD) of the test/metrics module header:
create the module; on NULL store NULL; retrieve the dict, on NULL release
the module and store NULL; run INIT_MODULE_GLOBALS (create both receptacle
dictionaries, on a pending error drop them, otherwise install both into the
module dict); if an error is pending release the module and store NULL,
otherwise store the module. -/
def CREATE_MODULE (w : InitWorld) : CreateModuleOut :=
  if !w.moduleCreateOk then
    { modNonNull := false, dictRetrieved := false, errnoInstalled := false,
      pythonInstalled := false, moduleReleased := false }
  else if !w.getDictOk then
    { modNonNull := false, dictRetrieved := false, errnoInstalled := false,
      pythonInstalled := false, moduleReleased := true }
  else if !w.errnoDictNewOk || !w.pythonDictNewOk then
    { modNonNull := false, dictRetrieved := true, errnoInstalled := false,
      pythonInstalled := false, moduleReleased := true }
  else if !w.setErrnoItemOk || !w.setPythonItemOk then
    { modNonNull := false, dictRetrieved := true,
      errnoInstalled := w.setErrnoItemOk,
      pythonInstalled := w.setPythonItemOk, moduleReleased := true }
  else
    { modNonNull := true, dictRetrieved := true, errnoInstalled := true,
      pythonInstalled := true, moduleReleased := false }

/-- Modelled from the spec: the loader and cache-manager sources are not
part of this tree, so a SourceUnit's observable file state is modelled from
the specification's data model: the file's bytes and its mtime. -/
structure SourceState where
  bytes : List Nat
  mtime : Nat
deriving DecidableEq, Repr

/-- Modelled from the spec: the persisted cache record for a source unit —
the mtime observed at build time, the content fingerprint (modelled as the
content itself, an idealized collision-free hash), and the toolchain
fingerprint. -/
structure CacheRecord where
  mtime : Nat
  content : List Nat
  toolchain : Nat
deriving DecidableEq, Repr

/-- Modelled from the spec: the Cache Manager's freshness decision — purely
fingerprint-based (content hash + toolchain fingerprint), with mtime used
only as a fast-path short-circuit before falling back to content hashing;
an absent record is never fresh. -/
def isFresh (entry : Option CacheRecord) (src : SourceState) (tc : Nat) :
    Bool :=
  match entry with
  | none => false
  | some r =>
    if r.toolchain = tc then
      if r.mtime = src.mtime then true
      else r.content == src.bytes
    else false

/-- Modelled from the spec: a committed cache entry — the fingerprint pair
recorded at build time plus the artifact it maps to. -/
structure CacheEntry where
  record : CacheRecord
  artifact : Nat
deriving DecidableEq, Repr

/-- Modelled from the spec: the outcome of one build attempt — success with
the new fingerprint and artifact, a compile failure, a link failure, or a
crash mid-build before the atomic rename. -/
inductive BuildResult
| success (r : CacheRecord) (artifact : Nat)
| compileFailed
| linkFailed
| crashed
deriving DecidableEq, Repr

/-- Modelled from the spec: the Cache Manager's commit step — a build is
performed into a temporary location and renamed into place only on success,
so only a successful build replaces the prior entry; compile failure, link
failure, and a crash before the rename leave the prior entry untouched. -/
def commitBuild (prior : Option CacheEntry) (r : BuildResult) :
    Option CacheEntry :=
  match r with
  | BuildResult.success rec a => some { record := rec, artifact := a }
  | BuildResult.compileFailed => prior
  | BuildResult.linkFailed => prior
  | BuildResult.crashed => prior

/-- C3: exactly one compilation role is selected per build — the chain
yields at most one role — and the selection fails outright (reaches
`#error unknown role`, yielding no role) exactly when none of the five role
predicates holds, never proceeding with a default. -/
theorem role_selection_exactly_one_or_fatal (c : RoleConfig) :
    (selectRole c = none ↔
      (c.test = false ∧ c.debug = false ∧ c.factor = false ∧
        c.inspect = false ∧ c.bootstrap = false)) ∧
    ∀ r s : Role, selectRole c = some r → selectRole c = some s → r = s := by
  constructor
  · obtain ⟨t, d, f, i, b⟩ := c
    cases t <;> cases d <;> cases f <;> cases i <;> cases b <;> decide
  · intro r s hr hs
    rw [hr] at hs
    exact Option.some.inj hs

/-- Witness for the role-selection theorem: the all-predicates-false
configuration reaches the fatal `#error unknown role`. -/
theorem role_selection_exactly_one_or_fatal_witness :
    selectRole
      { test := false, debug := false, factor := false, inspect := false,
        bootstrap := false } = none :=
  (role_selection_exactly_one_or_fatal
    { test := false, debug := false, factor := false, inspect := false,
      bootstrap := false }).1.mpr (by decide)

/-- C1: under the test role, when the errno receptacle holds an entry for
the call site and calling the entry returns a value other than Py_False,
the real SYSCALL is not performed and *RETURN is set to ERROR_STATUS (with
errno set to the carried integer when the entry returned a single-int
tuple); when the entry returns Py_False or no entry exists, the real
SYSCALL is performed. -/
theorem errno_receptacle_test_injection (d : List (String × CallResult))
    (fn sc : String) (es sr e0 : Int) :
    (∀ e : CallResult, lookupEntry d (fn ++ "." ++ sc) = some e →
      e ≠ CallResult.pyFalse →
      (ERRNO_RECEPTACLE Role.test d fn sc es sr e0).performed = false ∧
      (ERRNO_RECEPTACLE Role.test d fn sc es sr e0).ret = es ∧
      ∀ n : Int, e = CallResult.intTuple n →
        (ERRNO_RECEPTACLE Role.test d fn sc es sr e0).errno = n) ∧
    ((lookupEntry d (fn ++ "." ++ sc) = none ∨
        lookupEntry d (fn ++ "." ++ sc) = some CallResult.pyFalse) →
      (ERRNO_RECEPTACLE Role.test d fn sc es sr e0).performed = true ∧
      (ERRNO_RECEPTACLE Role.test d fn sc es sr e0).ret = sr) := by
  by_cases hlen : d.length = 0
  · have hnil : d = [] := List.length_eq_zero.mp hlen
    subst hnil
    constructor
    · intro e he _
      simp [lookupEntry] at he
    · intro _
      constructor <;>
        simp [ERRNO_RECEPTACLE, ERRNO_RECEPTACLE_test, lookupEntry]
  · constructor
    · intro e he hne
      cases e with
      | pyFalse => exact absurd rfl hne
      | failed =>
        refine ⟨?_, ?_, ?_⟩
        · simp [ERRNO_RECEPTACLE, ERRNO_RECEPTACLE_test, hlen, he]
        · simp [ERRNO_RECEPTACLE, ERRNO_RECEPTACLE_test, hlen, he]
        · intro n hn
          simp at hn
      | malformed =>
        refine ⟨?_, ?_, ?_⟩
        · simp [ERRNO_RECEPTACLE, ERRNO_RECEPTACLE_test, hlen, he]
        · simp [ERRNO_RECEPTACLE, ERRNO_RECEPTACLE_test, hlen, he]
        · intro n hn
          simp at hn
      | intTuple m =>
        refine ⟨?_, ?_, ?_⟩
        · simp [ERRNO_RECEPTACLE, ERRNO_RECEPTACLE_test, hlen, he]
        · simp [ERRNO_RECEPTACLE, ERRNO_RECEPTACLE_test, hlen, he]
        · intro n hn
          injection hn with hmn
          subst hmn
          simp [ERRNO_RECEPTACLE, ERRNO_RECEPTACLE_test, hlen, he]
    · rintro (he | he) <;> constructor <;>
        simp [ERRNO_RECEPTACLE, ERRNO_RECEPTACLE_test, hlen, he]

/-- Witness for the errno injection theorem at a concrete receptacle. -/
theorem errno_receptacle_test_injection_witness :
    (ERRNO_RECEPTACLE Role.test [("f.g", CallResult.intTuple 7)] "f" "g"
      (-1) 3 0).performed = false ∧
    (ERRNO_RECEPTACLE Role.test [("f.g", CallResult.intTuple 7)] "f" "g"
      (-1) 3 0).errno = 7 := by
  have h :=
    (errno_receptacle_test_injection [("f.g", CallResult.intTuple 7)]
      "f" "g" (-1) 3 0).1 (CallResult.intTuple 7) (by decide) (by decide)
  exact ⟨h.1, h.2.2 7 rfl⟩

/-- C2: for every role other than test, both receptacle expansions are
exactly the direct call — whatever any override table would contain, it is
never consulted and cannot affect the result. -/
theorem receptacles_direct_outside_test (role : Role)
    (h : role ≠ Role.test) :
    (∀ (d : List (String × CallResult)) (fn sc : String) (es sr e0 : Int),
      ERRNO_RECEPTACLE role d fn sc es sr e0 = directSyscall sr e0) ∧
    (∀ (q : List (String × PyCallResult)) (fn opId : String) (cr : PyVal),
      PYTHON_RECEPTACLE role q fn opId cr = directPyCall cr) := by
  constructor
  · intro d fn sc es sr e0
    simp [ERRNO_RECEPTACLE, directSyscall, h]
  · intro q fn opId cr
    simp [PYTHON_RECEPTACLE, directPyCall, h]

/-- Witness for the direct-call equivalence at the factor role with a
nonempty table. -/
theorem receptacles_direct_outside_test_witness :
    ERRNO_RECEPTACLE Role.factor [("a.b", CallResult.intTuple 5)] "a" "b"
      (-1) 9 0 = directSyscall 9 0 :=
  (receptacles_direct_outside_test Role.factor (by decide)).1
    [("a.b", CallResult.intTuple 5)] "a" "b" (-1) 9 0

/-- C9: under the test role, an entry whose invocation fails or returns a
value that is neither Py_False nor a single-int tuple still injects the
failure: the pending Python error is cleared, the warning is written, errno
is set to -1, and *RETURN is set to ERROR_STATUS without the real operation
being performed. -/
theorem errno_receptacle_malformed_injection
    (d : List (String × CallResult)) (fn sc : String) (es sr e0 : Int)
    (e : CallResult) (hfound : lookupEntry d (fn ++ "." ++ sc) = some e)
    (he : e = CallResult.failed ∨ e = CallResult.malformed) :
    ERRNO_RECEPTACLE Role.test d fn sc es sr e0 =
      { ret := es, errno := -1, performed := false, warned := true,
        errCleared := true } := by
  have hd : d ≠ [] := by
    intro hnil
    subst hnil
    simp [lookupEntry] at hfound
  have hlen : ¬ d.length = 0 := by
    simpa [List.length_eq_zero] using hd
  rcases he with rfl | rfl <;>
    simp [ERRNO_RECEPTACLE, ERRNO_RECEPTACLE_test, hlen, hfound]

/-- Witness for the malformed-injection theorem at a concrete receptacle. -/
theorem errno_receptacle_malformed_injection_witness :
    ERRNO_RECEPTACLE Role.test [("f.g", CallResult.malformed)] "f" "g"
      (-2) 3 0 =
      { ret := -2, errno := -1, performed := false, warned := true,
        errCleared := true } :=
  errno_receptacle_malformed_injection [("f.g", CallResult.malformed)]
    "f" "g" (-2) 3 0 CallResult.malformed (by decide) (Or.inr rfl)

/-- C4 counterexample: a build with the METRICS instrumentation predicate
active but the test role inactive still defines and installs the receptacle
dictionaries, so a non-test artifact can expose them — refuting the claim
that these symbols are exposed only under role=test. -/
theorem receptacle_exposure_metrics_counterexample :
    installsReceptacleSymbols false true = true := by decide

/-- C4 amended: the receptacle dictionaries are defined and installed
exactly when TEST or METRICS holds (so always under role=test, and never
under any other role unless METRICS instrumentation is active), and the
coverage-flush hook is bound to __gcov_flush exactly under the test role,
where flush_measurements calls it and returns Py_True, returning Py_None
otherwise. -/
theorem test_symbol_exposure_amended (t m : Bool) :
    installsReceptacleSymbols t m = (t || m) ∧
    installsReceptacleSymbols true m = true ∧
    installsReceptacleSymbols false false = false ∧
    bindsGcovFlush t = t ∧
    flush_measurements true = FlushBehavior.gcovFlushTrue ∧
    flush_measurements false = FlushBehavior.returnsNone := by
  cases t <;> cases m <;> decide

/-- C5: with a cache record written for the current toolchain fingerprint,
a source whose bytes differ from the recorded content (a genuine
modification, which also moves the mtime) is judged stale and rebuilt,
while a source with byte-identical content is judged fresh regardless of
its mtime — freshness is decided by the (content, toolchain) fingerprint
pair, never by mtime alone. -/
theorem fingerprint_freshness (r : CacheRecord) (src : SourceState)
    (tc : Nat) (htc : r.toolchain = tc) :
    (src.bytes ≠ r.content → src.mtime ≠ r.mtime →
      isFresh (some r) src tc = false) ∧
    (src.bytes = r.content → isFresh (some r) src tc = true) := by
  constructor
  · intro hb hm
    have hm2 : ¬ r.mtime = src.mtime := fun h => hm h.symm
    have hb2 : ¬ r.content = src.bytes := fun h => hb h.symm
    simp [isFresh, htc, hm2, hb2]
  · intro hb
    by_cases hm : r.mtime = src.mtime <;>
      simp [isFresh, htc, hm, hb.symm]

/-- Witness for the freshness theorem at a concrete record: a content change
(same byte length) forces a rebuild; a content-identical rewrite with a new
mtime does not. -/
theorem fingerprint_freshness_witness :
    isFresh (some { mtime := 5, content := [1, 2], toolchain := 7 })
      { bytes := [1, 3], mtime := 6 } 7 = false ∧
    isFresh (some { mtime := 5, content := [1, 2], toolchain := 7 })
      { bytes := [1, 2], mtime := 9 } 7 = true := by
  constructor
  · exact (fingerprint_freshness { mtime := 5, content := [1, 2], toolchain := 7 }
      { bytes := [1, 3], mtime := 6 } 7 rfl).1 (by decide) (by decide)
  · exact (fingerprint_freshness { mtime := 5, content := [1, 2], toolchain := 7 }
      { bytes := [1, 2], mtime := 9 } 7 rfl).2 (by decide)

/-- C6: only a successful build's atomic commit replaces the cache entry;
a compile failure, a link failure, or a crash mid-build leaves the prior
entry exactly as it was (and therefore still loadable). -/
theorem failed_build_preserves_cache (prior : Option CacheEntry) :
    (∀ (rec : CacheRecord) (a : Nat),
      commitBuild prior (BuildResult.success rec a) =
        some { record := rec, artifact := a }) ∧
    commitBuild prior BuildResult.compileFailed = prior ∧
    commitBuild prior BuildResult.linkFailed = prior ∧
    commitBuild prior BuildResult.crashed = prior :=
  ⟨fun _ _ => rfl, rfl, rfl, rfl⟩

/-- C7: the good.py.c fixture exports return_true as a METH_NOARGS function
and every invocation returns Py_True. -/
theorem good_return_true :
    (∀ s : PyVal, return_true s = PyVal.pyTrue) ∧
    good_methods = [{ name := "return_true", flags := METH_NOARGS }] :=
  ⟨fun _ => rfl, rfl⟩

/-- C8: the Python-3 CREATE_MODULE of the test/metrics header is
all-or-nothing — whenever *MOD is non-NULL, the module dict was retrieved,
both receptacle dictionaries were installed, and the module was not
released; whenever *MOD is NULL, either the module was never created or the
partially created module object was released. -/
theorem create_module_all_or_nothing (w : InitWorld) :
    ((CREATE_MODULE w).modNonNull = true →
      (CREATE_MODULE w).dictRetrieved = true ∧
      (CREATE_MODULE w).errnoInstalled = true ∧
      (CREATE_MODULE w).pythonInstalled = true ∧
      (CREATE_MODULE w).moduleReleased = false) ∧
    ((CREATE_MODULE w).modNonNull = false →
      w.moduleCreateOk = false ∨
      (CREATE_MODULE w).moduleReleased = true) := by
  obtain ⟨a, b, c, d, e, f⟩ := w
  cases a <;> cases b <;> cases c <;> cases d <;> cases e <;> cases f <;>
    decide

/-- Witness for the all-or-nothing theorem: with every C-API call
succeeding, the module is fully initialized. -/
theorem create_module_all_or_nothing_witness :
    (CREATE_MODULE
      { moduleCreateOk := true, getDictOk := true, errnoDictNewOk := true,
        pythonDictNewOk := true, setErrnoItemOk := true,
        setPythonItemOk := true }).dictRetrieved = true ∧
    (CREATE_MODULE
      { moduleCreateOk := true, getDictOk := true, errnoDictNewOk := true,
        pythonDictNewOk := true, setErrnoItemOk := true,
        setPythonItemOk := true }).errnoInstalled = true ∧
    (CREATE_MODULE
      { moduleCreateOk := true, getDictOk := true, errnoDictNewOk := true,
        pythonDictNewOk := true, setErrnoItemOk := true,
        setPythonItemOk := true }).pythonInstalled = true ∧
    (CREATE_MODULE
      { moduleCreateOk := true, getDictOk := true, errnoDictNewOk := true,
        pythonDictNewOk := true, setErrnoItemOk := true,
        setPythonItemOk := true }).moduleReleased = false :=
  (create_module_all_or_nothing
    { moduleCreateOk := true, getDictOk := true, errnoDictNewOk := true,
      pythonDictNewOk := true, setErrnoItemOk := true,
      setPythonItemOk := true }).1 (by decide)

/-- C10: under the factor role without the DOCSTRINGS option PyDoc_STR
yields the empty string for every argument; with the DOCSTRINGS option it
yields its argument unchanged; when the factor role is inactive Python's
default definition is applied unchanged. -/
theorem pydoc_str_roles (dflt : String → String) (x : String) :
    PyDoc_STR true false dflt x = "" ∧
    PyDoc_STR true true dflt x = x ∧
    (∀ o : Bool, PyDoc_STR false o dflt x = dflt x) := by
  refine ⟨rfl, rfl, ?_⟩
  intro o
  cases o <;> rfl
